import Mathlib

/-!
Shallow embedding of the solar-potential calculation core of the repository
(`backend/solar_calculations.py` together with the constants it uses from
`config/constants.py`), and proofs of the specification claims about it.

Modelling conventions:
* Python floats are modelled as rationals (`ℚ`); all the arithmetic in the
  core is +, -, *, / on finite decimal literals, so `ℚ` is exact.
* Python `int(x)` on a float truncates toward zero; it is modelled by `pyInt`.
* Python dictionaries whose keys may be absent are modelled by structures with
  `Option` fields; a `KeyError` on a missing key is the only exception the
  typed embedding can raise, and each `try/except` block of the source is
  modelled by matching on the `Option`s it reads and returning that block's
  `except` value when one is `none`.
* Division by a float `0.0` raises `ZeroDivisionError` in Python; the one
  place where the divisor is not statically nonzero (`usable_area / panel_area`
  in `_calculate_system_size`) carries an explicit `= 0` test that routes to
  that block's `except` value, mirroring the exception.
* The orchestrator `calculate_potential` has its own `except` returning
  `_get_default_potential()`, but with the inner stages each catching their
  own exceptions the only operation of its body that could raise is the
  division by `panel_specs['power_watts']`, and the catalog (including the
  `monocrystalline` fallback used by `PANEL_SPECS.get`) has no zero power,
  so the orchestrator body is total and is embedded directly.
-/

/-- Python `int()` applied to a rational: truncation toward zero. -/
def pyInt (x : ℚ) : ℤ :=
  if 0 ≤ x then ⌊x⌋ else ⌈x⌉

/-- `np.mean` of a list of rationals (sum divided by length; the empty list is
never used by the claims). -/
def list_mean (l : List ℚ) : ℚ :=
  l.sum / l.length

/-- Python `str.lower()`, modelled character-wise; the orientation keys are all
ASCII, where Python lower-casing and ASCII lower-casing agree. -/
def py_lower (s : String) : String :=
  String.mk (s.data.map Char.toLower)

/-- One entry of `PANEL_SPECS` in `config/constants.py`. -/
structure PanelSpec where
  power_watts : ℚ
  efficiency : ℚ
  area_m2 : ℚ
  cost_premium : ℚ
  lifespan_years : ℚ
  degradation_rate : ℚ
deriving DecidableEq

/-- `PANEL_SPECS['monocrystalline']`. -/
def monocrystalline_spec : PanelSpec :=
  ⟨400, 1/5, 2, 1, 25, 1/200⟩

/-- The `PANEL_SPECS` dictionary of `config/constants.py`, as a lookup from the
panel-type key to the spec (`none` when the key is absent). -/
def PANEL_SPECS (panel_type : String) : Option PanelSpec :=
  if panel_type = "monocrystalline" then some monocrystalline_spec
  else if panel_type = "polycrystalline" then some ⟨350, 17/100, 2, 85/100, 25, 3/500⟩
  else if panel_type = "thin_film" then some ⟨250, 12/100, 2, 7/10, 20, 1/125⟩
  else if panel_type = "bifacial" then some ⟨450, 22/100, 2, 6/5, 30, 1/250⟩
  else none

/-- The loss-chain entries of `SYSTEM_LOSSES` in `config/constants.py` that the
core reads (the remaining entries of the dictionary are never accessed by
`solar_calculations.py`). -/
structure SystemLosses where
  inverter_efficiency : ℚ
  dc_losses : ℚ
  ac_losses : ℚ
  soiling_losses : ℚ
deriving DecidableEq

/-- `SYSTEM_LOSSES` of `config/constants.py`. -/
def SYSTEM_LOSSES : SystemLosses :=
  ⟨96/100, 98/100, 99/100, 95/100⟩

/-- The entries of `FINANCIAL_PARAMS` in `config/constants.py` read by the
core. -/
structure FinancialParams where
  federal_tax_credit : ℚ
  electricity_rate_escalation : ℚ
deriving DecidableEq

/-- `FINANCIAL_PARAMS` of `config/constants.py`. -/
def FINANCIAL_PARAMS : FinancialParams :=
  ⟨3/10, 3/100⟩

/-- The `roof_metrics` input dictionary; the fields the core reads are
`Option`-valued so that a malformed record with missing keys is expressible. -/
structure RoofMetrics where
  usable_area : Option ℚ
  orientation : Option String
  slope : Option ℚ
  shading_factor : Option ℚ

/-- The `solar_data` input dictionary (both irradiance fields optional,
matching the `in` tests of `_calculate_annual_energy`). -/
structure SolarData where
  annual_irradiance : Option ℚ
  monthly_irradiance : Option (List ℚ)

/-- The dictionary returned by `_calculate_financial_metrics`. -/
structure FinancialMetrics where
  total_cost : ℚ
  federal_incentive : ℚ
  net_cost : ℚ
  annual_savings : ℚ
  monthly_savings : ℚ
  payback_years : ℚ
  lifetime_savings : ℚ
  roi_percent : ℚ
  cost_per_watt : ℚ
  savings_per_kwh : ℚ
deriving DecidableEq

/-- The dictionary returned by `_calculate_environmental_impact`. -/
structure EnvironmentalImpact where
  annual_co2_offset_lbs : ℚ
  annual_co2_offset_tons : ℚ
  lifetime_co2_offset_tons : ℚ
  equivalent_trees_planted : ℚ
  equivalent_cars_removed : ℚ
deriving DecidableEq

/-- The `system_specifications` sub-record of the orchestrator's result (the
`system_losses` entry it also carries is the constant `SYSTEM_LOSSES` and is
omitted as carrying no information). -/
structure SystemSpecifications where
  panel_type : String
  panel_power : ℚ
  panel_efficiency : ℚ
deriving DecidableEq

/-- The dictionary returned by `calculate_potential` (the financial and
environmental dictionaries, splatted flat in Python, are kept as sub-records
with the same field names). -/
structure SolarPotential where
  system_size_kw : ℚ
  panel_count : ℤ
  annual_energy_kwh : ℚ
  monthly_energy_kwh : ℚ
  daily_energy_kwh : ℚ
  capacity_factor : ℚ
  financial : FinancialMetrics
  environmental : EnvironmentalImpact
  system_specifications : SystemSpecifications
deriving DecidableEq

/-- `SolarCalculator._calculate_system_size`: panels that fit in the usable
area, thinned by the 0.75 spacing factor, converted to kW and clamped into
[1, 50]; a missing `usable_area` key or a zero panel area raises inside the
`try` and the `except` returns the stage default 5.0. -/
def calculate_system_size (roof_metrics : RoofMetrics) (panel_specs : PanelSpec) : ℚ :=
  match roof_metrics.usable_area with
  | none => 5
  | some usable_area =>
    if panel_specs.area_m2 = 0 then 5
    else
      max 1 (min (((pyInt ((pyInt (usable_area / panel_specs.area_m2) : ℚ) * (3/4)) : ℚ)
        * panel_specs.power_watts) / 1000) 50)

/-- `SolarCalculator._get_orientation_factor`: discrete table keyed by the
lower-cased orientation string, defaulting to 0.85 on a miss. -/
def get_orientation_factor (orientation : String) : ℚ :=
  if py_lower orientation = "south" then 1
  else if py_lower orientation = "southeast" then 19/20
  else if py_lower orientation = "southwest" then 19/20
  else if py_lower orientation = "east" then 17/20
  else if py_lower orientation = "west" then 17/20
  else if py_lower orientation = "northeast" then 3/4
  else if py_lower orientation = "northwest" then 3/4
  else if py_lower orientation = "north" then 3/5
  else 17/20

/-- `SolarCalculator._get_tilt_factor`: piecewise factor of the slope in
degrees. -/
def get_tilt_factor (slope_degrees : ℚ) : ℚ :=
  if slope_degrees < 10 then 9/10
  else if slope_degrees ≤ 15 then 19/20
  else if slope_degrees ≤ 25 then 1
  else if slope_degrees ≤ 35 then 49/50
  else if slope_degrees ≤ 45 then 19/20
  else 17/20

/-- The daily-irradiance selection at the top of
`SolarCalculator._calculate_annual_energy`: `annual_irradiance / 365` when
that key is present, else the mean of `monthly_irradiance` when present, else
the fixed default 4.5. -/
def daily_irradiance_of (solar_data : SolarData) : ℚ :=
  match solar_data.annual_irradiance with
  | some a => a / 365
  | none =>
    match solar_data.monthly_irradiance with
    | some l => list_mean l
    | none => 9/2

/-- The performance ratio computed in `_calculate_annual_energy` from the four
loss-chain coefficients of `SYSTEM_LOSSES`. -/
def performance_ratio : ℚ :=
  SYSTEM_LOSSES.inverter_efficiency * SYSTEM_LOSSES.dc_losses *
    SYSTEM_LOSSES.ac_losses * SYSTEM_LOSSES.soiling_losses

/-- `SolarCalculator._calculate_annual_energy`: the product formula floored at
0; a missing `orientation`, `slope` or `shading_factor` key raises inside the
`try` and the `except` returns the stage default `system_size_kw * 1200`. -/
def calculate_annual_energy (system_size_kw : ℚ) (solar_data : SolarData)
    (roof_metrics : RoofMetrics) : ℚ :=
  match roof_metrics.orientation, roof_metrics.slope, roof_metrics.shading_factor with
  | some o, some sl, some sh =>
      max 0 (system_size_kw * daily_irradiance_of solar_data *
        get_orientation_factor o * get_tilt_factor sl * (1 - sh) *
        performance_ratio * 365)
  | _, _, _ => system_size_kw * 1200

/-- `SolarCalculator._calculate_capacity_factor`. -/
def calculate_capacity_factor (annual_energy_kwh system_size_kw : ℚ) : ℚ :=
  if system_size_kw = 0 then 0
  else min 1 (max 0 (annual_energy_kwh / (system_size_kw * 8760)))

/-- The `while` loop of `SolarCalculator._calculate_payback_period`, with a
fuel parameter for structural recursion; the guard bounds `year` by 50 so any
fuel of at least 51 started from `year = 0` behaves as the source loop. -/
def payback_loop (initial_cost escalation_rate : ℚ) :
    ℕ → ℕ → ℚ → ℚ → ℕ
  | 0, year, _, _ => year
  | fuel + 1, year, cumulative_savings, current_annual_savings =>
    if cumulative_savings < initial_cost ∧ year < 50 then
      payback_loop initial_cost escalation_rate fuel (year + 1)
        (cumulative_savings + current_annual_savings)
        (current_annual_savings * (1 + escalation_rate))
    else year

/-- `SolarCalculator._calculate_payback_period`: sentinel 99.0 when
`annual_savings ≤ 0`, else the year at which the escalating cumulative savings
first reach `initial_cost`, capped at 50. -/
def calculate_payback_period (initial_cost annual_savings escalation_rate : ℚ) : ℚ :=
  if annual_savings ≤ 0 then 99
  else min ((payback_loop initial_cost escalation_rate 51 0 0 annual_savings : ℕ) : ℚ) 50

/-- The `for` loop of `SolarCalculator._calculate_lifetime_savings`, summing
the escalating savings stream starting at `current_annual_savings` for the
given number of years. -/
def lifetime_loop (current_annual_savings escalation_rate : ℚ) : ℕ → ℚ
  | 0 => 0
  | n + 1 => current_annual_savings +
      lifetime_loop (current_annual_savings * (1 + escalation_rate)) escalation_rate n

/-- `SolarCalculator._calculate_lifetime_savings`. -/
def calculate_lifetime_savings (annual_savings escalation_rate : ℚ) (years : ℕ) : ℚ :=
  lifetime_loop annual_savings escalation_rate years

/-- `SolarCalculator._calculate_financial_metrics`: pure guarded arithmetic,
so the stage's `except` branch is unreachable in the embedding. -/
def calculate_financial_metrics (system_size_kw annual_energy_kwh electricity_rate
    installation_cost_per_watt : ℚ) : FinancialMetrics :=
  { total_cost := system_size_kw * 1000 * installation_cost_per_watt
    federal_incentive := system_size_kw * 1000 * installation_cost_per_watt *
      FINANCIAL_PARAMS.federal_tax_credit
    net_cost := system_size_kw * 1000 * installation_cost_per_watt -
      system_size_kw * 1000 * installation_cost_per_watt * FINANCIAL_PARAMS.federal_tax_credit
    annual_savings := annual_energy_kwh * electricity_rate
    monthly_savings := annual_energy_kwh * electricity_rate / 12
    payback_years := calculate_payback_period
      (system_size_kw * 1000 * installation_cost_per_watt -
        system_size_kw * 1000 * installation_cost_per_watt * FINANCIAL_PARAMS.federal_tax_credit)
      (annual_energy_kwh * electricity_rate) FINANCIAL_PARAMS.electricity_rate_escalation
    lifetime_savings := calculate_lifetime_savings (annual_energy_kwh * electricity_rate)
      FINANCIAL_PARAMS.electricity_rate_escalation 25
    roi_percent :=
      if 0 < system_size_kw * 1000 * installation_cost_per_watt -
          system_size_kw * 1000 * installation_cost_per_watt * FINANCIAL_PARAMS.federal_tax_credit
      then ((calculate_lifetime_savings (annual_energy_kwh * electricity_rate)
          FINANCIAL_PARAMS.electricity_rate_escalation 25 -
          (system_size_kw * 1000 * installation_cost_per_watt -
            system_size_kw * 1000 * installation_cost_per_watt *
              FINANCIAL_PARAMS.federal_tax_credit)) /
          (system_size_kw * 1000 * installation_cost_per_watt -
            system_size_kw * 1000 * installation_cost_per_watt *
              FINANCIAL_PARAMS.federal_tax_credit)) * 100
      else 0
    cost_per_watt := installation_cost_per_watt
    savings_per_kwh := electricity_rate }

/-- `SolarCalculator._calculate_environmental_impact`: pure arithmetic with
fixed conversion constants. -/
def calculate_environmental_impact (annual_energy_kwh : ℚ) : EnvironmentalImpact :=
  { annual_co2_offset_lbs := annual_energy_kwh * (85/100)
    annual_co2_offset_tons := annual_energy_kwh * (85/100) / 2000
    lifetime_co2_offset_tons := annual_energy_kwh * (85/100) / 2000 * 25
    equivalent_trees_planted := annual_energy_kwh * (85/100) / 48
    equivalent_cars_removed := annual_energy_kwh * (85/100) / 2000 / (46/10) }

/-- `SolarCalculator._get_default_financial_metrics`. -/
def get_default_financial_metrics : FinancialMetrics :=
  ⟨15000, 4500, 10500, 1200, 100, 88/10, 30000, 1857/10, 3, 1/5⟩

/-- `SolarCalculator._get_default_potential`: the documented full fallback
record of the orchestrator. -/
def get_default_potential : SolarPotential :=
  { system_size_kw := 5
    panel_count := 16
    annual_energy_kwh := 6000
    monthly_energy_kwh := 500
    daily_energy_kwh := 164/10
    capacity_factor := 14/100
    financial := get_default_financial_metrics
    environmental := ⟨5100, 255/100, 6375/100, 106, 55/100⟩
    system_specifications := ⟨"monocrystalline", 400, 1/5⟩ }

/-- `SolarCalculator.calculate_potential`: resolve the panel spec with the
`monocrystalline` fallback, run the four stages in order and assemble the
result record. -/
def calculate_potential (roof_metrics : RoofMetrics) (solar_data : SolarData)
    (panel_type : String) (electricity_rate installation_cost_per_watt : ℚ) :
    SolarPotential :=
  let panel_specs := (PANEL_SPECS panel_type).getD monocrystalline_spec
  let system_size_kw := calculate_system_size roof_metrics panel_specs
  let annual_energy_kwh := calculate_annual_energy system_size_kw solar_data roof_metrics
  { system_size_kw := system_size_kw
    panel_count := pyInt (system_size_kw * 1000 / panel_specs.power_watts)
    annual_energy_kwh := annual_energy_kwh
    monthly_energy_kwh := annual_energy_kwh / 12
    daily_energy_kwh := annual_energy_kwh / 365
    capacity_factor := calculate_capacity_factor annual_energy_kwh system_size_kw
    financial := calculate_financial_metrics system_size_kw annual_energy_kwh
      electricity_rate installation_cost_per_watt
    environmental := calculate_environmental_impact annual_energy_kwh
    system_specifications := ⟨panel_type, panel_specs.power_watts, panel_specs.efficiency⟩ }

/-- Follows the spec's words (§4.3): the cumulative escalated savings through
year n, the sum over k = 1..n of annual_savings * (1+escalation)^(k-1). -/
def spec_cumulative_savings (annual_savings escalation_rate : ℚ) (n : ℕ) : ℚ :=
  ∑ k ∈ Finset.range n, annual_savings * (1 + escalation_rate) ^ k

/-- Follows the spec's words (§7): the fully computed (no-fallback) pipeline
result, defined only when no stage of the computation fails — every roof key
the pipeline reads is present and the panel area is nonzero. -/
def spec_full_computed_result (roof_metrics : RoofMetrics) (solar_data : SolarData)
    (panel_type : String) (electricity_rate installation_cost_per_watt : ℚ) :
    Option SolarPotential :=
  match roof_metrics.usable_area, roof_metrics.orientation, roof_metrics.slope,
      roof_metrics.shading_factor with
  | some _, some _, some _, some _ =>
    if ((PANEL_SPECS panel_type).getD monocrystalline_spec).area_m2 = 0 then none
    else some (calculate_potential roof_metrics solar_data panel_type
      electricity_rate installation_cost_per_watt)
  | _, _, _, _ => none

/-- Follows the spec's words (§4.2): the daily irradiance baseline — prefer
annual_irradiance/365, else the arithmetic mean of monthly_irradiance, else the
fixed default 4.5. -/
def spec_daily_irradiance (solar_data : SolarData) : ℚ :=
  match solar_data.annual_irradiance with
  | some a => a / 365
  | none =>
    match solar_data.monthly_irradiance with
    | some l => list_mean l
    | none => 9/2

/-- Follows the spec's words (§4.2): the performance ratio is the product of
the inverter, DC, AC and soiling loss-chain coefficients. -/
def spec_performance_ratio : ℚ :=
  SYSTEM_LOSSES.inverter_efficiency * SYSTEM_LOSSES.dc_losses *
    SYSTEM_LOSSES.ac_losses * SYSTEM_LOSSES.soiling_losses

/-- Follows the spec's words (§4.2): annual_kWh = system_size_kw *
daily_irradiance * orientation_factor * tilt_factor * shading_attenuation *
performance_ratio * 365, floored at 0. -/
def spec_annual_energy (system_size_kw : ℚ) (solar_data : SolarData)
    (orientation : String) (slope shading : ℚ) : ℚ :=
  max 0 (system_size_kw * spec_daily_irradiance solar_data *
    get_orientation_factor orientation * get_tilt_factor slope * (1 - shading) *
    spec_performance_ratio * 365)

lemma pyInt_of_nonneg {x : ℚ} (hx : 0 ≤ x) : pyInt x = ⌊x⌋ :=
  if_pos hx

lemma pyInt_mono {x y : ℚ} (h : x ≤ y) : pyInt x ≤ pyInt y := by
  unfold pyInt
  split_ifs with hx hy hy
  · exact Int.floor_le_floor h
  · exact absurd (le_trans hx h) hy
  · have h1 : ⌈x⌉ ≤ 0 := Int.ceil_le.mpr (by push_cast; exact (not_le.mp hx).le)
    have h2 : 0 ≤ ⌊y⌋ := Int.floor_nonneg.mpr hy
    omega
  · exact Int.ceil_le_ceil h

lemma lifetime_loop_zero (escalation_rate : ℚ) :
    ∀ n : ℕ, lifetime_loop 0 escalation_rate n = 0 := by
  intro n
  induction n with
  | zero => rfl
  | succ n ih =>
    rw [lifetime_loop, zero_mul, ih, add_zero]

lemma system_size_bounds (roof_metrics : RoofMetrics) (panel_specs : PanelSpec) :
    1 ≤ calculate_system_size roof_metrics panel_specs ∧
      calculate_system_size roof_metrics panel_specs ≤ 50 := by
  unfold calculate_system_size
  rcases roof_metrics with ⟨ua, o, sl, sh⟩
  cases ua with
  | none => norm_num
  | some a =>
    dsimp only
    split_ifs with h
    · norm_num
    · exact ⟨le_max_left _ _, max_le (by norm_num) (min_le_right _ _)⟩

lemma orientation_factor_pos (o : String) : 0 < get_orientation_factor o := by
  unfold get_orientation_factor
  split_ifs <;> norm_num

lemma orientation_factor_le_one (o : String) : get_orientation_factor o ≤ 1 := by
  unfold get_orientation_factor
  split_ifs <;> norm_num

lemma resolved_spec_pos (pt : String) :
    0 < ((PANEL_SPECS pt).getD monocrystalline_spec).power_watts ∧
      0 < ((PANEL_SPECS pt).getD monocrystalline_spec).area_m2 := by
  unfold PANEL_SPECS
  split_ifs <;> simp [monocrystalline_spec]

lemma max_zero_mul_le {f M : ℚ} (h0 : 0 ≤ f) (h1 : f ≤ 1) :
    max 0 (f * M) ≤ max 0 M := by
  rcases le_or_lt 0 M with hM | hM
  · refine max_le (le_max_left _ _) (le_trans ?_ (le_max_right _ _))
    nlinarith
  · have hfM : f * M ≤ 0 := by nlinarith
    rw [max_eq_left hfM]
    exact le_max_left _ _

/-- C9: with net_cost ≤ 0 and positive annual savings the accumulation loop of
the payback computation never runs, and the result is the year count 0. -/
theorem nonpositive_net_cost_payback_zero (initial_cost annual_savings escalation_rate : ℚ)
    (hc : initial_cost ≤ 0) (hs : 0 < annual_savings) :
    calculate_payback_period initial_cost annual_savings escalation_rate = 0 := by
  unfold calculate_payback_period
  rw [if_neg (not_le.mpr hs)]
  have h51 : (51 : ℕ) = 50 + 1 := rfl
  rw [h51, payback_loop]
  rw [if_neg (by rintro ⟨h, -⟩; exact absurd (h.trans_le hc) (lt_irrefl 0))]
  norm_num

/-- C9 witness at a concrete input. -/
theorem nonpositive_net_cost_payback_zero_witness :
    calculate_payback_period 0 1200 (3/100) = 0 :=
  nonpositive_net_cost_payback_zero 0 1200 (3/100) le_rfl (by norm_num)

/-- C10: the system_specifications sub-record echoes the caller's panel_type
string verbatim while panel_power and panel_efficiency come from the spec the
computation actually used, which is the monocrystalline catalog entry whenever
the string is not a catalog key (shown at the unknown key "gallium_arsenide"). -/
theorem panel_type_echoed (panel_type : String) (roof_metrics : RoofMetrics)
    (solar_data : SolarData) (electricity_rate installation_cost_per_watt : ℚ) :
    (calculate_potential roof_metrics solar_data panel_type electricity_rate
        installation_cost_per_watt).system_specifications.panel_type = panel_type ∧
    (calculate_potential roof_metrics solar_data panel_type electricity_rate
        installation_cost_per_watt).system_specifications.panel_power =
      ((PANEL_SPECS panel_type).getD monocrystalline_spec).power_watts ∧
    (calculate_potential roof_metrics solar_data panel_type electricity_rate
        installation_cost_per_watt).system_specifications.panel_efficiency =
      ((PANEL_SPECS panel_type).getD monocrystalline_spec).efficiency ∧
    PANEL_SPECS "gallium_arsenide" = none ∧
    (calculate_potential roof_metrics solar_data "gallium_arsenide" electricity_rate
        installation_cost_per_watt).system_specifications.panel_power = 400 ∧
    (calculate_potential roof_metrics solar_data "gallium_arsenide" electricity_rate
        installation_cost_per_watt).system_specifications.panel_efficiency = 1/5 :=
  ⟨rfl, rfl, rfl, rfl, rfl, rfl⟩

/-- C8: roi_percent is the guarded formula — (lifetime_savings - net_cost) /
net_cost * 100 when net_cost > 0 and 0 otherwise — and the computation is
total with the expected values at zero electricity rate (non-positive ROI) and
zero installation cost (zero net cost, ROI 0). -/
theorem roi_guarded_formula (system_size_kw annual_energy_kwh electricity_rate
    installation_cost_per_watt : ℚ) :
    (calculate_financial_metrics system_size_kw annual_energy_kwh electricity_rate
        installation_cost_per_watt).roi_percent =
      (if 0 < (calculate_financial_metrics system_size_kw annual_energy_kwh electricity_rate
          installation_cost_per_watt).net_cost then
        ((calculate_financial_metrics system_size_kw annual_energy_kwh electricity_rate
            installation_cost_per_watt).lifetime_savings -
          (calculate_financial_metrics system_size_kw annual_energy_kwh electricity_rate
            installation_cost_per_watt).net_cost) /
          (calculate_financial_metrics system_size_kw annual_energy_kwh electricity_rate
            installation_cost_per_watt).net_cost * 100
      else 0) ∧
    (calculate_financial_metrics system_size_kw annual_energy_kwh 0
        installation_cost_per_watt).roi_percent ≤ 0 ∧
    (calculate_financial_metrics system_size_kw annual_energy_kwh electricity_rate
        0).roi_percent = 0 := by
  refine ⟨rfl, ?_, ?_⟩
  · simp only [calculate_financial_metrics, mul_zero]
    have hL : calculate_lifetime_savings 0 FINANCIAL_PARAMS.electricity_rate_escalation 25 = 0 := by
      unfold calculate_lifetime_savings
      exact lifetime_loop_zero _ 25
    rw [hL]
    split_ifs with h
    · rw [zero_sub, neg_div, div_self (ne_of_gt h)]
      norm_num
    · norm_num
  · simp [calculate_financial_metrics]

/-- C5: on a well-formed roof record the annual energy estimate equals the
spec formula (system size times daily irradiance times orientation, tilt,
shading-attenuation and performance-ratio factors times 365, floored at 0),
with the daily irradiance chosen as annual/365, else the monthly mean, else
the 4.5 default; missing irradiance data yields the default rather than an
error. -/
theorem annual_energy_formula (system_size_kw : ℚ) (ann : Option ℚ)
    (mon : Option (List ℚ)) (ua : Option ℚ) (o : String) (sl sh : ℚ) :
    calculate_annual_energy system_size_kw ⟨ann, mon⟩ ⟨ua, some o, some sl, some sh⟩ =
      spec_annual_energy system_size_kw ⟨ann, mon⟩ o sl sh ∧
    spec_daily_irradiance ⟨none, none⟩ = 9/2 := by
  constructor
  · cases ann <;> cases mon <;> rfl
  · rfl

lemma payback_loop_succ (cost esc : ℚ) (fuel year : ℕ) (cum cur : ℚ) :
    payback_loop cost esc (fuel + 1) year cum cur =
      if cum < cost ∧ year < 50 then
        payback_loop cost esc fuel (year + 1) (cum + cur) (cur * (1 + esc))
      else year := rfl

lemma orientation_table_southeast : get_orientation_factor "southeast" = 19/20 := by
  unfold get_orientation_factor
  rw [if_neg (by decide), if_pos (by decide)]

lemma mixed_panel_count (o : String) (sl sh : ℚ) (solar_data : SolarData)
    (electricity_rate installation_cost_per_watt : ℚ) :
    (calculate_potential ⟨none, some o, some sl, some sh⟩ solar_data
      "monocrystalline" electricity_rate installation_cost_per_watt).panel_count = 12 := by
  show pyInt _ = 12
  norm_num [calculate_system_size, PANEL_SPECS, monocrystalline_spec]
  rw [pyInt, if_pos (by norm_num)]
  rw [Int.floor_eq_iff]
  norm_num

lemma mixed_ne_default (o : String) (sl sh : ℚ) (solar_data : SolarData)
    (electricity_rate installation_cost_per_watt : ℚ) :
    calculate_potential ⟨none, some o, some sl, some sh⟩ solar_data
      "monocrystalline" electricity_rate installation_cost_per_watt ≠
      get_default_potential := by
  intro h
  have h2 := congrArg SolarPotential.panel_count h
  rw [mixed_panel_count] at h2
  exact absurd h2 (by decide)

/-- C6: with every other parameter fixed, the south orientation gives annual
energy at least that of any other orientation string, and the orientation
factors follow the discrete table (south 1.00, southeast/southwest 0.95,
east/west 0.85, northeast/northwest 0.75, north 0.60, unknown 0.85), matched
case-insensitively. -/
theorem south_orientation_maximal :
    (∀ (system_size_kw : ℚ) (solar_data : SolarData) (ua : Option ℚ)
      (sl sh : ℚ) (o : String),
      calculate_annual_energy system_size_kw solar_data ⟨ua, some o, some sl, some sh⟩ ≤
        calculate_annual_energy system_size_kw solar_data
          ⟨ua, some "south", some sl, some sh⟩) ∧
    get_orientation_factor "south" = 1 ∧
    get_orientation_factor "southeast" = 19/20 ∧
    get_orientation_factor "southwest" = 19/20 ∧
    get_orientation_factor "east" = 17/20 ∧
    get_orientation_factor "west" = 17/20 ∧
    get_orientation_factor "northeast" = 3/4 ∧
    get_orientation_factor "northwest" = 3/4 ∧
    get_orientation_factor "north" = 3/5 ∧
    get_orientation_factor "somewhere-else" = 17/20 ∧
    get_orientation_factor "SOUTH" = 1 ∧
    get_orientation_factor "SouthWest" = 19/20 := by
  refine ⟨?_, by decide,
    by unfold get_orientation_factor; rw [if_neg (by decide), if_pos (by decide)],
    by unfold get_orientation_factor
       rw [if_neg (by decide), if_neg (by decide), if_pos (by decide)],
    by unfold get_orientation_factor
       rw [if_neg (by decide), if_neg (by decide), if_neg (by decide), if_pos (by decide)],
    by unfold get_orientation_factor
       rw [if_neg (by decide), if_neg (by decide), if_neg (by decide), if_neg (by decide),
         if_pos (by decide)],
    by unfold get_orientation_factor
       rw [if_neg (by decide), if_neg (by decide), if_neg (by decide), if_neg (by decide),
         if_neg (by decide), if_pos (by decide)],
    by unfold get_orientation_factor
       rw [if_neg (by decide), if_neg (by decide), if_neg (by decide), if_neg (by decide),
         if_neg (by decide), if_neg (by decide), if_pos (by decide)],
    by unfold get_orientation_factor
       rw [if_neg (by decide), if_neg (by decide), if_neg (by decide), if_neg (by decide),
         if_neg (by decide), if_neg (by decide), if_neg (by decide), if_pos (by decide)],
    by unfold get_orientation_factor
       rw [if_neg (by decide), if_neg (by decide), if_neg (by decide), if_neg (by decide),
         if_neg (by decide), if_neg (by decide), if_neg (by decide), if_neg (by decide)],
    by decide,
    by unfold get_orientation_factor
       rw [if_neg (by decide), if_neg (by decide), if_pos (by decide)]⟩
  intro size sd ua sl sh o
  simp only [calculate_annual_energy]
  have hsouth : get_orientation_factor "south" = 1 := by decide
  rw [hsouth]
  have hshape : ∀ x : ℚ, size * daily_irradiance_of sd * x * get_tilt_factor sl *
      (1 - sh) * performance_ratio * 365 =
      x * (size * daily_irradiance_of sd * get_tilt_factor sl * (1 - sh) *
        performance_ratio * 365) := fun x => by ring
  rw [hshape (get_orientation_factor o), hshape 1, one_mul]
  exact max_zero_mul_le (orientation_factor_pos o).le (orientation_factor_le_one o)

/-- C2 counterexample: with roof_metrics missing the usable_area key (other
arguments well-formed) the orchestrator's returned panel_count is 12, not the
16 of the documented fallback record, so the claimed full-fallback result is
not what is returned. -/
theorem missing_usable_area_fallback_counterexample :
    (calculate_potential ⟨none, some "south", some 25, some 0⟩ ⟨some 1825, none⟩
      "monocrystalline" (12/100) 3).panel_count ≠ 16 := by
  rw [mixed_panel_count]
  decide

/-- C2 (amended): with roof_metrics missing the usable_area key the call
returns without raising, with system_size_kw 5.0 — the system-size stage's own
default — but with panel_count 12 computed from that default (for the
monocrystalline panel), not the documented full fallback record. -/
theorem missing_usable_area_partial_fallback (o : String) (sl sh : ℚ)
    (solar_data : SolarData) (electricity_rate installation_cost_per_watt : ℚ) :
    (calculate_potential ⟨none, some o, some sl, some sh⟩ solar_data
        "monocrystalline" electricity_rate installation_cost_per_watt).system_size_kw = 5 ∧
    (calculate_potential ⟨none, some o, some sl, some sh⟩ solar_data
        "monocrystalline" electricity_rate installation_cost_per_watt).panel_count = 12 ∧
    calculate_potential ⟨none, some o, some sl, some sh⟩ solar_data
        "monocrystalline" electricity_rate installation_cost_per_watt ≠
      get_default_potential :=
  ⟨rfl, mixed_panel_count o sl sh solar_data electricity_rate installation_cost_per_watt,
    mixed_ne_default o sl sh solar_data electricity_rate installation_cost_per_watt⟩

/-- C3 counterexample: at a roof record missing only usable_area, the returned
record is neither the documented full fallback record nor the fully computed
(no stage failed) result, refuting the never-a-mix claim. -/
theorem full_result_or_full_fallback_counterexample :
    ¬ (calculate_potential ⟨none, some "south", some 25, some 0⟩ ⟨some 1825, none⟩
        "monocrystalline" (12/100) 3 = get_default_potential ∨
      some (calculate_potential ⟨none, some "south", some 25, some 0⟩ ⟨some 1825, none⟩
        "monocrystalline" (12/100) 3) =
        spec_full_computed_result ⟨none, some "south", some 25, some 0⟩ ⟨some 1825, none⟩
          "monocrystalline" (12/100) 3) := by
  rintro (h | h)
  · exact mixed_ne_default _ _ _ _ _ _ h
  · simp [spec_full_computed_result] at h

/-- C3 (amended): the pipeline stages fall back independently, so a returned
record can mix one stage's default with computed values of the other stages:
when usable_area is missing, system_size_kw is the stage default 5.0 while
annual_energy_kwh is the energy stage's computed value at that size, and the
record differs from the documented full fallback record. -/
theorem stage_defaults_mix (o : String) (sl sh : ℚ) (ann : Option ℚ)
    (mon : Option (List ℚ)) (electricity_rate installation_cost_per_watt : ℚ) :
    (calculate_potential ⟨none, some o, some sl, some sh⟩ ⟨ann, mon⟩
        "monocrystalline" electricity_rate installation_cost_per_watt).system_size_kw = 5 ∧
    (calculate_potential ⟨none, some o, some sl, some sh⟩ ⟨ann, mon⟩
        "monocrystalline" electricity_rate installation_cost_per_watt).annual_energy_kwh =
      calculate_annual_energy 5 ⟨ann, mon⟩ ⟨none, some o, some sl, some sh⟩ ∧
    calculate_potential ⟨none, some o, some sl, some sh⟩ ⟨ann, mon⟩
        "monocrystalline" electricity_rate installation_cost_per_watt ≠
      get_default_potential :=
  ⟨rfl, rfl,
    mixed_ne_default o sl sh ⟨ann, mon⟩ electricity_rate installation_cost_per_watt⟩

/-- C4: for non-negative usable area and any panel-type string (the catalog
spec actually used, i.e. the requested one or the monocrystalline fallback),
the computed system size lies in [1, 50] kW, the 1.0 kW floor is returned when
the area is smaller than one panel, and the orchestrator's panel_count is the
floor of system_size_kw * 1000 / panel_power_watts. -/
theorem system_size_bounds_and_panel_count (panel_type : String) (a : ℚ)
    (o : Option String) (sl sh : Option ℚ) (solar_data : SolarData)
    (electricity_rate installation_cost_per_watt : ℚ) (ha : 0 ≤ a) :
    1 ≤ calculate_system_size ⟨some a, o, sl, sh⟩
        ((PANEL_SPECS panel_type).getD monocrystalline_spec) ∧
    calculate_system_size ⟨some a, o, sl, sh⟩
        ((PANEL_SPECS panel_type).getD monocrystalline_spec) ≤ 50 ∧
    (a < ((PANEL_SPECS panel_type).getD monocrystalline_spec).area_m2 →
      calculate_system_size ⟨some a, o, sl, sh⟩
        ((PANEL_SPECS panel_type).getD monocrystalline_spec) = 1) ∧
    (calculate_potential ⟨some a, o, sl, sh⟩ solar_data panel_type electricity_rate
        installation_cost_per_watt).panel_count =
      ⌊calculate_system_size ⟨some a, o, sl, sh⟩
          ((PANEL_SPECS panel_type).getD monocrystalline_spec) * 1000 /
        ((PANEL_SPECS panel_type).getD monocrystalline_spec).power_watts⌋ := by
  obtain ⟨hpow, harea⟩ := resolved_spec_pos panel_type
  refine ⟨(system_size_bounds _ _).1, (system_size_bounds _ _).2, ?_, ?_⟩
  · intro hlt
    unfold calculate_system_size
    dsimp only
    rw [if_neg (ne_of_gt harea)]
    have h0 : pyInt (a / ((PANEL_SPECS panel_type).getD monocrystalline_spec).area_m2) = 0 := by
      rw [pyInt_of_nonneg (div_nonneg ha harea.le), Int.floor_eq_zero_iff]
      exact ⟨div_nonneg ha harea.le, (div_lt_one harea).mpr hlt⟩
    rw [h0]
    have h1 : pyInt (((0 : ℤ) : ℚ) * (3/4)) = 0 := by
      norm_num [pyInt]
    rw [h1]
    rw [show (((0 : ℤ) : ℚ) * ((PANEL_SPECS panel_type).getD monocrystalline_spec).power_watts) /
      1000 = 0 by push_cast; ring]
    rw [min_eq_left (by norm_num), max_eq_left (by norm_num)]
  · have hsz := (system_size_bounds ⟨some a, o, sl, sh⟩
      ((PANEL_SPECS panel_type).getD monocrystalline_spec)).1
    show pyInt _ = _
    rw [pyInt_of_nonneg (div_nonneg (mul_nonneg (le_trans zero_le_one hsz)
      (by norm_num)) hpow.le)]

/-- C4 witness: concrete instance at usable_area 0 with the monocrystalline
catalog entry — the sizer returns the 1.0 kW floor and panel_count is the
floor of size * 1000 / panel power. -/
theorem system_size_bounds_and_panel_count_witness :
    calculate_system_size ⟨some 0, none, none, none⟩
        ((PANEL_SPECS "monocrystalline").getD monocrystalline_spec) = 1 ∧
    (calculate_potential ⟨some 0, none, none, none⟩ ⟨none, none⟩ "monocrystalline"
        (12/100) 3).panel_count =
      ⌊calculate_system_size ⟨some 0, none, none, none⟩
          ((PANEL_SPECS "monocrystalline").getD monocrystalline_spec) * 1000 /
        ((PANEL_SPECS "monocrystalline").getD monocrystalline_spec).power_watts⌋ := by
  have h := system_size_bounds_and_panel_count "monocrystalline" 0 none none none
    ⟨none, none⟩ (12/100) 3 le_rfl
  refine ⟨h.2.2.1 ?_, h.2.2.2⟩
  have hres : (PANEL_SPECS "monocrystalline").getD monocrystalline_spec =
      monocrystalline_spec := rfl
  rw [hres]
  norm_num [monocrystalline_spec]

/-- C7: with all other inputs fixed (and a catalog-like panel spec with
positive area and non-negative power), enlarging the usable area never
shrinks the computed system size, and once the size has reached the 50 kW cap
it stays exactly 50. -/
theorem system_size_monotone (a1 a2 : ℚ) (o : Option String) (sl sh : Option ℚ)
    (panel_specs : PanelSpec) (h12 : a1 ≤ a2) (harea : 0 < panel_specs.area_m2)
    (hpow : 0 ≤ panel_specs.power_watts) :
    calculate_system_size ⟨some a1, o, sl, sh⟩ panel_specs ≤
      calculate_system_size ⟨some a2, o, sl, sh⟩ panel_specs ∧
    (calculate_system_size ⟨some a1, o, sl, sh⟩ panel_specs = 50 →
      calculate_system_size ⟨some a2, o, sl, sh⟩ panel_specs = 50) := by
  have hmono : calculate_system_size ⟨some a1, o, sl, sh⟩ panel_specs ≤
      calculate_system_size ⟨some a2, o, sl, sh⟩ panel_specs := by
    unfold calculate_system_size
    dsimp only
    rw [if_neg (ne_of_gt harea), if_neg (ne_of_gt harea)]
    apply max_le_max le_rfl
    apply min_le_min _ le_rfl
    apply (div_le_div_iff_of_pos_right (by norm_num : (0:ℚ) < 1000)).mpr
    apply mul_le_mul_of_nonneg_right _ hpow
    apply Int.cast_le.mpr
    apply pyInt_mono
    apply mul_le_mul_of_nonneg_right _ (by norm_num : (0:ℚ) ≤ 3/4)
    exact Int.cast_le.mpr (pyInt_mono ((div_le_div_iff_of_pos_right harea).mpr h12))
  exact ⟨hmono, fun h50 => le_antisymm (system_size_bounds _ _).2 (h50 ▸ hmono)⟩

/-- C7 witness: concrete instance with the monocrystalline spec, areas 100 and
200 square meters; the size at area 100 is below the one at area 200. -/
theorem system_size_monotone_witness :
    calculate_system_size ⟨some 100, none, none, none⟩ monocrystalline_spec ≤
      calculate_system_size ⟨some 200, none, none, none⟩ monocrystalline_spec ∧
    (calculate_system_size ⟨some 100, none, none, none⟩ monocrystalline_spec = 50 →
      calculate_system_size ⟨some 200, none, none, none⟩ monocrystalline_spec = 50) :=
  system_size_monotone 100 200 none none none monocrystalline_spec (by norm_num)
    (by norm_num [monocrystalline_spec]) (by norm_num [monocrystalline_spec])

lemma spec_cumulative_savings_succ (s e : ℚ) (n : ℕ) :
    spec_cumulative_savings s e (n + 1) =
      spec_cumulative_savings s e n + s * (1 + e) ^ n :=
  Finset.sum_range_succ _ _

lemma payback_loop_spec (cost savings esc : ℚ) :
    ∀ fuel year, year ≤ 50 → 50 ≤ fuel + year →
      (∀ m : ℕ, m < year → spec_cumulative_savings savings esc m < cost) →
      year ≤ payback_loop cost esc fuel year (spec_cumulative_savings savings esc year)
          (savings * (1 + esc) ^ year) ∧
      payback_loop cost esc fuel year (spec_cumulative_savings savings esc year)
          (savings * (1 + esc) ^ year) ≤ 50 ∧
      (∀ m : ℕ,
        m < payback_loop cost esc fuel year (spec_cumulative_savings savings esc year)
          (savings * (1 + esc) ^ year) →
        spec_cumulative_savings savings esc m < cost) ∧
      (cost ≤ spec_cumulative_savings savings esc
          (payback_loop cost esc fuel year (spec_cumulative_savings savings esc year)
            (savings * (1 + esc) ^ year)) ∨
        payback_loop cost esc fuel year (spec_cumulative_savings savings esc year)
          (savings * (1 + esc) ^ year) = 50) := by
  intro fuel
  induction fuel with
  | zero =>
    intro year hy hfy hm
    have h50 : year = 50 := by omega
    exact ⟨le_rfl, hy, hm, Or.inr h50⟩
  | succ f ih =>
    intro year hy hfy hm
    rw [payback_loop_succ]
    by_cases hc : spec_cumulative_savings savings esc year < cost ∧ year < 50
    · rw [if_pos hc]
      rw [show spec_cumulative_savings savings esc year + savings * (1 + esc) ^ year =
          spec_cumulative_savings savings esc (year + 1) from
          (spec_cumulative_savings_succ savings esc year).symm,
        show savings * (1 + esc) ^ year * (1 + esc) = savings * (1 + esc) ^ (year + 1) from
          by ring]
      have hnext : ∀ m : ℕ, m < year + 1 → spec_cumulative_savings savings esc m < cost := by
        intro m hm'
        rcases Nat.lt_succ_iff_lt_or_eq.mp hm' with h | h
        · exact hm m h
        · exact h ▸ hc.1
      obtain ⟨h1, h2, h3, h4⟩ := ih (year + 1) (by omega) (by omega) hnext
      exact ⟨le_trans (Nat.le_succ year) h1, h2, h3, h4⟩
    · rw [if_neg hc]
      push_neg at hc
      refine ⟨le_rfl, hy, hm, ?_⟩
      rcases lt_or_le (spec_cumulative_savings savings esc year) cost with hlt | hge
      · exact Or.inr (le_antisymm hy (hc hlt))
      · exact Or.inl hge

/-- C1 (amended): for positive net cost and positive annual savings the payback
computation returns the smallest year n between 1 and 50 at which the
cumulative escalated savings reach the net cost, or 50 when the threshold is
not reached within 50 years; for annual_savings ≤ 0 the returned sentinel is
99.0 (the code's no-payback sentinel, not the 50.0 the original claim
states). -/
theorem payback_period_first_crossing (initial_cost annual_savings escalation_rate : ℚ) :
    (0 < initial_cost → 0 < annual_savings →
      (∃ n : ℕ, 1 ≤ n ∧ n ≤ 50 ∧
        initial_cost ≤ spec_cumulative_savings annual_savings escalation_rate n ∧
        (∀ m : ℕ, m < n →
          spec_cumulative_savings annual_savings escalation_rate m < initial_cost) ∧
        calculate_payback_period initial_cost annual_savings escalation_rate = n) ∨
      ((∀ n : ℕ, n ≤ 50 →
          spec_cumulative_savings annual_savings escalation_rate n < initial_cost) ∧
        calculate_payback_period initial_cost annual_savings escalation_rate = 50)) ∧
    (annual_savings ≤ 0 →
      calculate_payback_period initial_cost annual_savings escalation_rate = 99) := by
  constructor
  · intro hcost hsav
    have h := payback_loop_spec initial_cost annual_savings escalation_rate 51 0
      (by norm_num) (by norm_num) (fun m hm => absurd hm (Nat.not_lt_zero m))
    rw [show spec_cumulative_savings annual_savings escalation_rate 0 = 0 from
        by simp [spec_cumulative_savings],
      show annual_savings * (1 + escalation_rate) ^ 0 = annual_savings from by ring] at h
    obtain ⟨h0, h50, hall, hdisj⟩ := h
    have hresult : calculate_payback_period initial_cost annual_savings escalation_rate =
        ((payback_loop initial_cost escalation_rate 51 0 0 annual_savings : ℕ) : ℚ) := by
      unfold calculate_payback_period
      rw [if_neg (not_le.mpr hsav)]
      exact min_eq_left (by exact_mod_cast h50)
    rcases hdisj with hge | h50eq
    · left
      have hr1 : 1 ≤ payback_loop initial_cost escalation_rate 51 0 0 annual_savings := by
        rcases Nat.eq_zero_or_pos (payback_loop initial_cost escalation_rate 51 0 0
          annual_savings) with h0' | h1'
        · rw [h0', show spec_cumulative_savings annual_savings escalation_rate 0 = 0 from
            by simp [spec_cumulative_savings]] at hge
          linarith
        · exact h1'
      exact ⟨payback_loop initial_cost escalation_rate 51 0 0 annual_savings,
        hr1, h50, hge, hall, hresult⟩
    · rcases le_or_lt initial_cost
        (spec_cumulative_savings annual_savings escalation_rate 50) with hge | hlt
      · left
        refine ⟨50, by norm_num, le_rfl, hge, ?_, ?_⟩
        · intro m hm
          exact hall m (by omega)
        · rw [hresult, h50eq]
      · right
        refine ⟨fun n hn => ?_, ?_⟩
        · rcases eq_or_lt_of_le hn with heq | hn'
          · exact heq ▸ hlt
          · exact hall n (by omega)
        · rw [hresult, h50eq]
          norm_num
  · intro hns
    unfold calculate_payback_period
    rw [if_pos hns]

/-- C1 witness: at net cost 250, savings 100 and zero escalation the first
crossing year is 3; at savings 0 the sentinel 99.0 is returned. -/
theorem payback_period_first_crossing_witness :
    calculate_payback_period 250 100 0 = 3 ∧
    calculate_payback_period 100 0 (3/100) = 99 := by
  constructor
  · have h := (payback_period_first_crossing 250 100 0).1 (by norm_num) (by norm_num)
    have hS : ∀ m : ℕ, spec_cumulative_savings 100 0 m = 100 * m := by
      intro m
      unfold spec_cumulative_savings
      norm_num [Finset.sum_const, Finset.card_range, nsmul_eq_mul, mul_comm]
    rcases h with ⟨n, h1, h50, hge, hlt, heq⟩ | ⟨hall, heq⟩
    · rw [hS] at hge
      have hn3 : 3 ≤ n := by
        by_contra hcon
        push_neg at hcon
        have hcast : (n : ℚ) ≤ 2 := by exact_mod_cast Nat.lt_succ_iff.mp hcon
        nlinarith
      have hn3' : n ≤ 3 := by
        by_contra hcon
        push_neg at hcon
        have h3 := hlt 3 hcon
        rw [hS] at h3
        norm_num at h3
      rw [heq, le_antisymm hn3' hn3]
      norm_num
    · have h3 := hall 3 (by norm_num)
      rw [hS] at h3
      norm_num at h3
  · exact (payback_period_first_crossing 100 0 (3/100)).2 (by norm_num)

/-- C1 counterexample: at annual savings 0 (for instance electricity rate 0)
the code returns the sentinel 99.0, not the 50.0 the claim states. -/
theorem payback_sentinel_counterexample :
    calculate_payback_period 100 0 (3/100) = 99 ∧
    calculate_payback_period 100 0 (3/100) ≠ 50 := by
  constructor
  · norm_num [calculate_payback_period]
  · norm_num [calculate_payback_period]
